import Mathlib

/-!
Shallow embedding of the mygene.info query-compilation layer
(src/utils/es.py): species resolution, index routing, the query
builders (dis-max relevance, scoped-identifier, genomic interval,
wildcard), filter composition and the custom scoring wrap, together
with theorems checking the specification's claims about them.

Python values are modelled explicitly: machine strings as `String`,
Python ints as `Int`, JSON documents as the `Json` inductive below
(JSON numbers as rationals, since Python ints and floats both
serialize to JSON numbers), fallible code as `Except`.
-/

/-- JSON-like values produced by the query builders. -/
inductive Json where
  | null : Json
  | str : String → Json
  | num : Rat → Json
  | bool : Bool → Json
  | arr : List Json → Json
  | obj : List (String × Json) → Json

/-- A Python value that is either an int or a string (the two element
types the es.py code paths accept for ids, species tokens and genome
positions). -/
inductive PyItem where
  | int : Int → PyItem
  | str : String → PyItem

/-- The accepted input types of the species parameter of
ESQuery._cleaned_species: None, an int, a string, or a sequence of
ints/strings.  Any other Python type raises ValueError in the source;
that branch lies outside this input type. -/
inductive PyVal where
  | noneV : PyVal
  | intV : Int → PyVal
  | strV : String → PyVal
  | seqV : List PyItem → PyVal

/-- Result of ESQuery._cleaned_species: None (only in default_to_none
mode), the string "all", or a Python list whose elements the source
appends one by one (modelled as PyItem so that the claim that only
integers are ever appended is a theorem, not a typing accident). -/
inductive CRes where
  | resNone : CRes
  | resAll : CRes
  | resList : List PyItem → CRes

/-- A resolved species value as the downstream builder code receives
it: the string "all" or a list of taxonomy ids. -/
inductive SpeciesVal where
  | all : SpeciesVal
  | ids : List Int → SpeciesVal

/-- Python-level failures raised by the modelled code paths:
QueryError (user-facing), ValueError (int() failures), IndexError
(indexing an empty list). -/
inductive PyErr where
  | queryError : String → PyErr
  | valueError : String → PyErr
  | indexError : PyErr

/-- The physical index partition chosen by ESQuery._set_index
(ES_INDEX_NAME vs ES_INDEX_NAME_TIER1, opaque config values). -/
inductive Idx where
  | full : Idx
  | tier1 : Idx

/-- ASCII lower-casing of one character (models str.lower over the
ASCII range the modelled inputs use). -/
def pyLowerChar (c : Char) : Char :=
  if 'A' ≤ c && c ≤ 'Z' then Char.ofNat (c.toNat + 32) else c

/-- Models Python str.lower(). -/
def pyLower (s : String) : String := String.mk (s.data.map pyLowerChar)

/-- The whitespace class stripped by Python str.strip(): space and the
control characters HT..CR. -/
def isPySpace (c : Char) : Bool := c == ' ' || (9 ≤ c.toNat && c.toNat ≤ 13)

/-- Models Python str.strip(): remove leading and trailing whitespace. -/
def pyStrip (s : String) : String :=
  String.mk (((s.data.dropWhile isPySpace).reverse.dropWhile isPySpace).reverse)

/-- Models Python str.startswith(p). -/
def pyStartsWith (s p : String) : Bool := p.data.isPrefixOf s.data

/-- Accumulator loop for pySplit. -/
def pySplitAux (p : Char → Bool) : List Char → List Char → List String
  | [], acc => [String.mk acc.reverse]
  | c :: rest, acc =>
    if p c then String.mk acc.reverse :: pySplitAux p rest []
    else pySplitAux p rest (c :: acc)

/-- Models Python str.split(sep) for a one-character separator given as
a predicate: the list of chunks between separator occurrences (the
empty string splits to [""], as in Python). -/
def pySplit (p : Char → Bool) (s : String) : List String := pySplitAux p s.data []

/-- Models Python int(s) on a string: optional surrounding whitespace,
an optional sign, then at least one ASCII digit (digit-separating
underscores of Python 3.6+ are not modelled; no claim involves them).
Returns none where int() raises ValueError. -/
def parseIntStr (s : String) : Option Int :=
  let t := pyStrip s
  let signDigits :=
    if pyStartsWith t "-" then ((-1 : Int), t.drop 1)
    else if pyStartsWith t "+" then ((1 : Int), t.drop 1)
    else ((1 : Int), t)
  let digits := signDigits.2
  if digits.length > 0 && digits.data.all Char.isDigit then
    some (signDigits.1 * Int.ofNat (digits.data.foldl (fun a c => a * 10 + (c.toNat - 48)) 0))
  else none

/-- Models biothings.utils.common.is_int: int(s) succeeds (true for
every int, and for strings accepted by int()). -/
def is_int : PyItem → Bool
  | .int _ => true
  | .str s => (parseIntStr s).isSome

/-- The TAXONOMY table of es.py (name → taxonomy id). -/
def TAXONOMY : List (String × Int) :=
  [("human", 9606), ("mouse", 10090), ("rat", 10116), ("fruitfly", 7227),
   ("nematode", 6239), ("zebrafish", 7955), ("thale-cress", 3702),
   ("frog", 8364), ("pig", 9823)]

/-- Dictionary lookup s in TAXONOMY / TAXONOMY[s]. -/
def taxonomyLookup (s : String) : Option Int :=
  (TAXONOMY.find? (fun p => p.1 == s)).map (fun p => p.2)

/-- ESQuery._default_species = [9606, 10090, 10116]. -/
def default_species : List Int := [9606, 10090, 10116]

/-- ESQuery._tier_1_species = set(TAXONOMY.values()). -/
def tier_1_species : List Int := TAXONOMY.map (fun p => p.2)

/-- ESQuery._set_index (es.py lines 91-96): the full index when species
is "all" or the set difference species - tier_1_species is non-empty,
else the tier-1 index. -/
def _set_index (species : SpeciesVal) : Idx :=
  match species with
  | .all => .full
  | .ids l =>
    if 0 < (l.filter (fun t => decide (t ∉ tier_1_species))).length then .full
    else .tier1

/-- One iteration of the resolution loop of ESQuery._cleaned_species
(es.py lines 128-132): is_int(s) appends int(s); otherwise a token
found in TAXONOMY appends its taxid; otherwise the token is dropped. -/
def resolveToken : PyItem → List PyItem
  | .int n => [.int n]
  | .str t =>
    match parseIntStr t with
    | some n => [.int n]
    | none =>
      match taxonomyLookup t with
      | some n => [.int n]
      | none => []

/-- The full resolution loop of ESQuery._cleaned_species. -/
def resolveTokens : List PyItem → List PyItem
  | [] => []
  | t :: rest => resolveToken t ++ resolveTokens rest

/-- ESQuery._cleaned_species (es.py lines 106-133).  None falls back to
the default species (or None when default_to_none); an int becomes a
one-element list; a string equal to "all" (case-insensitive) becomes
the all sentinel, any other string is comma-split with tokens stripped
and lower-cased; sequences (and the split token list) run through the
resolution loop. -/
def _cleaned_species (species : PyVal) (default_to_none : Bool) : CRes :=
  match species with
  | .noneV =>
    if default_to_none then .resNone else .resList (default_species.map PyItem.int)
  | .intV n => .resList [.int n]
  | .strV s =>
    if pyLower s == "all" then .resAll
    else .resList (resolveTokens ((pySplit (fun c => c == ',') s).map
      (fun t => PyItem.str (pyLower (pyStrip t)))))
  | .seqV l => .resList (resolveTokens l)

/-- Parses a decimal-digit string to a natural number (helper for
reading the numeric content of the string boost factors of
add_species_custom_filters_score). -/
def parseNatDigits (s : String) : Option Nat :=
  if s.length > 0 && s.data.all Char.isDigit then
    some (s.data.foldl (fun a c => a * 10 + (c.toNat - 48)) 0)
  else none

/-- Reads a decimal literal such as "1.55" as an exact fraction —
numerator over a power of ten, no normalisation — giving the numeric
meaning the execution engine assigns the string boost factors. -/
def decimalFraction (s : String) : Option (Int × Nat) :=
  match pySplit (fun c => c == '.') s with
  | [a] => (parseNatDigits a).map (fun n => ((n : Int), 1))
  | [a, b] =>
    match parseNatDigits a, parseNatDigits b with
    | some na, some nb => some (((na * 10 ^ b.length + nb : Nat) : Int), 10 ^ b.length)
    | _, _ => none
  | _ => none

/-- Comparison of two decimal fractions by cross multiplication
(reducible so that decidability falls out of the integer order). -/
abbrev fracLt (x y : Int × Nat) : Prop := x.1 * (y.2 : Int) < y.1 * (x.2 : Int)

/-- ESQueryBuilder.add_species_custom_filters_score (es.py lines
524-550): wraps any query in a function_score envelope with the fixed
rule list (pseudogene 0.5, taxid 9606 1.55, 10090 1.3, 10116 1.1; the
boost factors are string literals in the source) and score_mode
"first". -/
def add_species_custom_filters_score (q : Json) : Json :=
  .obj [("function_score", .obj
    [("query", q),
     ("functions", .arr
       [.obj [("filter", .obj [("term", .obj [("name", .str "pseudogene")])]),
              ("boost_factor", .str "0.5")],
        .obj [("filter", .obj [("term", .obj [("taxid", .num 9606)])]),
              ("boost_factor", .str "1.55")],
        .obj [("filter", .obj [("term", .obj [("taxid", .num 10090)])]),
              ("boost_factor", .str "1.3")],
        .obj [("filter", .obj [("term", .obj [("taxid", .num 10116)])]),
              ("boost_factor", .str "1.1")]]),
     ("score_mode", .str "first")])]

/-- The per-request state of ESQueryBuilder after __init__ (es.py lines
188-233): the popped query options, plus the external saved-filter
store (UserFilters().get, a collaborator; `ufStore name` is the
['filter'] value of the stored document, none when the name resolves
to nothing). -/
structure BState where
  species : SpeciesVal
  species_facet_filter : Option (List Int)
  entrezonly : Bool
  ensemblonly : Bool
  userfilter : Option (List String)
  existsfilter : Option (List String)
  missingfilter : Option (List String)
  ufStore : String → Option Json
  query_options : List (String × Json)

/-- Python dict assignment d[k] = v on a JSON object: replaces the value
of an existing key, appends the key otherwise. -/
def setKey (j : Json) (k : String) (v : Json) : Json :=
  match j with
  | .obj kvs =>
    if kvs.any (fun p => p.1 == k) then
      .obj (kvs.map (fun p => if p.1 == k then (k, v) else p))
    else .obj (kvs ++ [(k, v)])
  | _ => j

/-- Dictionary lookup on a JSON object. -/
def getKey (j : Json) (k : String) : Option Json :=
  match j with
  | .obj kvs => (kvs.find? (fun p => p.1 == k)).map (fun p => p.2)
  | _ => none

/-- Two-level dictionary lookup. -/
def getKey2 (j : Json) (k₁ k₂ : String) : Option Json :=
  match getKey j k₁ with
  | some v => getKey v k₂
  | none => none

/-- The `_q.update(self._query_options)` step shared by the builders:
merges the surviving query options into the compiled object (a no-op
when the option dict is empty, matching the `if self._query_options`
guard). -/
def updateOptions (st : BState) (q : Json) : Json :=
  st.query_options.foldl (fun acc kv => setKey acc kv.1 kv.2) q

/-- The length Python's len() gives the builder's species attribute:
len("all") = 3 for the all sentinel, list length otherwise (the
add_facet_filters code calls len(self.species) without checking for
"all"). -/
def speciesLen : SpeciesVal → Nat
  | .all => 3
  | .ids l => l.length

/-- The filter clause list built by ESQueryBuilder.get_query_filters
(es.py lines 450-486), in source order: species (term for a single id,
terms otherwise; skipped for "all" and for an empty list, which is
falsy), entrezonly, ensemblonly, each resolvable userfilter name, each
exists field, each missing field. -/
def scope_filter_clauses (st : BState) : List Json :=
  (match st.species with
   | .all => []
   | .ids [] => []
   | .ids [t] => [.obj [("term", .obj [("taxid", .num (t : Rat))])]]
   | .ids l => [.obj [("terms", .obj [("taxid", .arr (l.map (fun t => .num (t : Rat))))])]])
  ++ (if st.entrezonly then [Json.obj [("exists", .obj [("field", .str "entrezgene")])]] else [])
  ++ (if st.ensemblonly then [Json.obj [("exists", .obj [("field", .str "ensemblgene")])]] else [])
  ++ (match st.userfilter with
      | none => []
      | some names => names.filterMap st.ufStore)
  ++ (match st.existsfilter with
      | none => []
      | some fs => fs.map (fun f => Json.obj [("exists", .obj [("field", .str f)])]))
  ++ (match st.missingfilter with
      | none => []
      | some fs => fs.map (fun f => Json.obj [("missing", .obj [("field", .str f)])]))

/-- ESQueryBuilder.get_query_filters (es.py lines 446-495): the clause
list collapsed per lines 488-495 — the empty (falsy) list stands for
"no filter" (none), a single clause is returned bare, two or more are
wrapped in an explicit "and" combinator. -/
def get_query_filters (st : BState) : Option Json :=
  match scope_filter_clauses st with
  | [] => none
  | [f] => some f
  | f :: g :: rest => some (.obj [("and", .arr (f :: g :: rest))])

/-- Models the biothings base-class ESQueryBuilder.add_query_filters
(not under src/): when get_query_filters yields a filter, wrap the
query in a filtered query carrying it; otherwise pass the query
through unchanged. -/
def add_query_filters (st : BState) (q : Json) : Json :=
  match get_query_filters st with
  | none => q
  | some f => .obj [("filtered", .obj [("query", q), ("filter", f)])]

/-- ESQueryBuilder.add_facet_filters (es.py lines 497-522): when the
species_facet_filter is truthy (a non-empty list), append a single
clause — a term on species_facet_filter[0] when len(self.species) == 1,
a terms clause on the whole facet filter list otherwise — and store the
(single-element, hence bare) filter under the "filter" key of the
compiled query. -/
def add_facet_filters (st : BState) (q : Json) : Json :=
  match st.species_facet_filter with
  | none => q
  | some [] => q
  | some (f :: fs) =>
    let filt :=
      if speciesLen st.species = 1 then
        Json.obj [("term", .obj [("taxid", .num (f : Rat))])]
      else
        Json.obj [("terms", .obj [("taxid", .arr ((f :: fs).map (fun t => Json.num (t : Rat))))])]
    setKey q "filter" filt

/-- The sanitisation step opening ESQueryBuilder.dis_max_query (es.py
lines 274-275): q.replace('"', '').replace('\\', '') — removing every
occurrence of a single character is filtering it out of the character
list. -/
def removeQuotesBackslash (q : String) : String :=
  String.mk (q.data.filter (fun c => !(c == '"' || c == '\\')))

/-- The fixed six-clause list of ESQueryBuilder.dis_max_query (es.py
lines 280-369) with the sanitised query text substituted for the
%(q)s placeholders: symbol (weight 5), phrase name (4), AND name (3),
unigene (1.1), go (1.1), catch-all query_string (1). -/
def dis_max_standard_clauses (q : String) : List Json :=
  [.obj [("function_score", .obj
     [("query", .obj [("match", .obj
        [("symbol", .obj [("query", .str q), ("analyzer", .str "whitespace_lowercase")])])]),
      ("weight", .num 5)])],
   .obj [("function_score", .obj
     [("query", .obj [("match_phrase", .obj [("name", .str q)])]),
      ("weight", .num 4)])],
   .obj [("function_score", .obj
     [("query", .obj [("match", .obj
        [("name", .obj [("query", .str q), ("operator", .str "and"),
                        ("analyzer", .str "whitespace_lowercase")])])]),
      ("weight", .num 3)])],
   .obj [("function_score", .obj
     [("query", .obj [("match", .obj
        [("unigene", .obj [("query", .str q), ("analyzer", .str "string_lowercase")])])]),
      ("weight", .num (11 / 10))])],
   .obj [("function_score", .obj
     [("query", .obj [("match", .obj
        [("go", .obj [("query", .str q), ("analyzer", .str "string_lowercase")])])]),
      ("weight", .num (11 / 10))])],
   .obj [("function_score", .obj
     [("query", .obj [("query_string", .obj
        [("query", .str q), ("default_operator", .str "AND"),
         ("auto_generate_phrase_queries", .bool true)])]),
      ("weight", .num 1)])]]

/-- The exact entrezgene term clause (weight 8) that dis_max_query
installs as the sole clause for integer queries (es.py lines 375-387). -/
def entrez_term_clause (n : Int) : Json :=
  .obj [("function_score", .obj
    [("query", .obj [("term", .obj [("entrezgene", .num (n : Rat))])]),
     ("weight", .num 8)])]

/-- ESQueryBuilder.dis_max_query (es.py lines 273-389): strips double
quotes and backslashes from q, builds the six-clause dis_max body, and
when is_int(q) holds empties the clause list and inserts the single
entrezgene term clause on int(q). -/
def dis_max_query (q : String) : Json :=
  let q := removeQuotesBackslash q
  match parseIntStr q with
  | some n =>
    .obj [("dis_max", .obj
      [("tie_breaker", .num 0), ("boost", .num 1),
       ("queries", .arr [entrez_term_clause n])])]
  | none =>
    .obj [("dis_max", .obj
      [("tie_breaker", .num 0), ("boost", .num 1),
       ("queries", .arr (dis_max_standard_clauses q))])]

/-- ESQueryBuilder.wildcard_query (es.py lines 391-444): lower-cases
the pattern and emits three wildcard clauses (symbol, name, summary);
the json.dumps/% /json.loads round trip of the source raises
ValueError — reported as QueryError("invalid query term.") — when the
substituted text breaks the JSON string syntax, i.e. contains a double
quote or backslash. -/
def wildcard_query (q : String) : Except PyErr Json :=
  let ql := pyLower q
  if ql.data.any (fun c => c == '"' || c == '\\') then
    .error (.queryError "invalid query term.")
  else
    .ok (.obj [("dis_max", .obj
      [("tie_breaker", .num 0), ("boost", .num 1),
       ("queries", .arr
         [.obj [("function_score", .obj
            [("query", .obj [("wildcard", .obj [("symbol", .obj [("value", .str ql)])])])])],
          .obj [("function_score", .obj
            [("query", .obj [("wildcard", .obj [("name", .obj [("value", .str ql)])])])])],
          .obj [("function_score", .obj
            [("query", .obj [("wildcard", .obj [("summary", .obj [("value", .str ql)])])])])]])])])

/-- Modelled from the spec (4.3), standing in for the biothings
base-class generate_query (not under src/): a query containing a
wildcard character beyond the first position goes to the wildcard
builder, every other query to the dis-max relevance builder. -/
def generate_query (q : String) : Except PyErr Json :=
  if (q.drop 1).data.any (fun c => c == '*' || c == '?') then wildcard_query q
  else .ok (dis_max_query q)

/-- The fake query of ESQueryBuilder.__init__ used to guarantee empty
hits (es.py lines 236-240). -/
def nohits_query : Json := .obj [("match", .obj [("non_exist_field", .str "")])]

/-- JSON embedding of a Python int-or-string value. -/
def jsonOfItem : PyItem → Json
  | .int n => .num (n : Rat)
  | .str s => .str s

/-- Python u"{}".format(id). -/
def idFormat : PyItem → String
  | .int n => toString n
  | .str s => s

/-- The scopes argument of build_id_query: a single field name or a
sequence of field names (any other type raises ValueError in the
source and lies outside this input type). -/
inductive Scopes where
  | fieldName : String → Scopes
  | fieldList : List String → Scopes

/-- The query-construction branches of ESQueryBuilder.build_id_query
(es.py lines 596-677), before the filter and score wrapping. -/
def build_id_query_core (id : PyItem) (scopes : Option Scopes) : Json :=
  let id_is_int := is_int id
  match scopes with
  | none =>
    if id_is_int then
      .obj [("multi_match", .obj
        [("query", jsonOfItem id),
         ("fields", .arr [.str "entrezgene", .str "retired"])])]
    else
      .obj [("match", .obj
        [("ensemblgene", .obj
          [("query", .str (idFormat id)), ("operator", .str "and")])])]
  | some (.fieldName f) =>
    if f == "entrezgene" || f == "retired" then
      if id_is_int then .obj [("match", .obj [(f, jsonOfItem id)])]
      else nohits_query
    else
      .obj [("match", .obj
        [(f, .obj [("query", .str (idFormat id)), ("operator", .str "and")])])]
  | some (.fieldList fields) =>
    let intf₁ := if fields.contains "entrezgene" then ["entrezgene"] else []
    let sf₁ := if fields.contains "entrezgene" then fields.erase "entrezgene" else fields
    let intf := intf₁ ++ (if sf₁.contains "retired" then ["retired"] else [])
    let sf := if sf₁.contains "retired" then sf₁.erase "retired" else sf₁
    if id_is_int then
      match intf with
      | [f] => .obj [("match", .obj [(f, jsonOfItem id)])]
      | [f, g] =>
        .obj [("multi_match", .obj
          [("query", jsonOfItem id), ("fields", .arr [.str f, .str g])])]
      | _ => nohits_query
    else if !sf.isEmpty then
      .obj [("multi_match", .obj
        [("query", .str (idFormat id)),
         ("fields", .arr (sf.map Json.str)),
         ("operator", .str "and")])]
    else nohits_query

/-- ESQueryBuilder.build_id_query (es.py lines 596-689): the core query
wrapped by add_query_filters and add_species_custom_filters_score,
placed under "query" and merged with the surviving query options. -/
def build_id_query (st : BState) (id : PyItem) (scopes : Option Scopes) : Json :=
  updateOptions st (.obj [("query",
    add_species_custom_filters_score (add_query_filters st (build_id_query_core id scopes)))])

/-- Python s.replace(',', ''). -/
def stripCommas (s : String) : String :=
  String.mk (s.data.filter (fun c => !(c == ',')))

/-- safe_genome_pos (es.py lines 51-62): an int passes through, a
string has digit-grouping commas removed and is fed to int()
(ValueError when that fails). -/
def safe_genome_pos : PyItem → Except PyErr Int
  | .int n => .ok n
  | .str s =>
    match parseIntStr (stripCommas s) with
    | some n => .ok n
    | none => .error (.valueError "invalid literal for int")

/-- The genomic-position field selection of build_genomic_pos_query
(es.py lines 701-706): "genomic_pos" by default, the hg19 / mm9
variants for those assembly values (any other truthy assembly falls
through to the default, as in the source). -/
def genomic_pos_field : Option String → String
  | none => "genomic_pos"
  | some a =>
    if a == "hg19" then "genomic_pos_hg19"
    else if a == "mm9" then "genomic_pos_mm9"
    else "genomic_pos"

/-- The nested query construction of build_genomic_pos_query (es.py
lines 696-727): normalise the positions with safe_genome_pos, strip a
leading "chr" prefix case-insensitively, lower-case the chromosome,
and require exact chromosome equality, stored start ≤ queried end
(lte) and stored end ≥ queried start (gte). -/
def genomic_pos_core (ch : String) (gs ge : PyItem) (asm : Option String) :
    Except PyErr Json :=
  match safe_genome_pos gs with
  | .error e => .error e
  | .ok gstart =>
    match safe_genome_pos ge with
    | .error e => .error e
    | .ok gend =>
      let c := if pyStartsWith (pyLower ch) "chr" then ch.drop 3 else ch
      let fld := genomic_pos_field asm
      .ok (.obj [("nested", .obj
        [("path", .str fld),
         ("query", .obj [("bool", .obj [("must", .arr
           [.obj [("term", .obj [(fld ++ ".chr", .str (pyLower c))])],
            .obj [("range", .obj [(fld ++ ".start", .obj [("lte", .num (gend : Rat))])])],
            .obj [("range", .obj [(fld ++ ".end", .obj [("gte", .num (gstart : Rat))])])]])])])])])

/-- ESQueryBuilder.build_genomic_pos_query (es.py lines 691-740): the
nested core wrapped by add_query_filters (no score augmentation on
this path), placed under "query" and merged with the query options. -/
def build_genomic_pos_query (st : BState) (ch : String) (gs ge : PyItem)
    (asm : Option String) : Except PyErr Json :=
  match genomic_pos_core ch gs ge asm with
  | .error e => .error e
  | .ok core => .ok (updateOptions st (.obj [("query", add_query_filters st core)]))

/-- The captured groups of the interval regex plus the optional
assembly prefix. -/
structure IntervalQuery where
  chr : String
  gstart : String
  gend : String
  assembly : Option String

/-- The \w character class of the interval regex, modelled over ASCII:
letters, digits and underscore. -/
def isWordChar (c : Char) : Bool := c.isAlphanum || c == '_'

/-- The [0-9,] character class of the interval regex. -/
def isDigitComma (c : Char) : Bool := c.isDigit || c == ','

/-- One attempt of the interval regex

  chr(?P<chr>\w+):(?P<gstart>[0-9,]+)-(?P<gend>[0-9,]+)

anchored at the head of the character list.  Because none of ':' and
'-' belongs to the class it follows, each greedy +-group can only match
its maximal run, so the model takes maximal runs without backtracking. -/
def matchIntervalAt (cs : List Char) : Option (String × String × String) :=
  match cs with
  | 'c' :: 'h' :: 'r' :: rest =>
    let w := rest.takeWhile isWordChar
    let r₁ := rest.dropWhile isWordChar
    if w.isEmpty then none
    else
      match r₁ with
      | ':' :: r₂ =>
        let g₁ := r₂.takeWhile isDigitComma
        let r₃ := r₂.dropWhile isDigitComma
        if g₁.isEmpty then none
        else
          match r₃ with
          | '-' :: r₄ =>
            let g₂ := r₄.takeWhile isDigitComma
            if g₂.isEmpty then none
            else some (String.mk w, String.mk g₁, String.mk g₂)
          | _ => none
      | _ => none
  | _ => none

/-- re.search of the interval regex: the leftmost position where the
pattern matches. -/
def searchInterval : List Char → Option (String × String × String)
  | [] => none
  | c :: rest =>
    match matchIntervalAt (c :: rest) with
    | some r => some r
    | none => searchInterval rest

/-- ESQueryBuilder._parse_interval_query (es.py lines 250-270): the
regex groups plus the assembly selected by a literal "hg19." / "mm9."
prefix of the raw query string. -/
def _parse_interval_query (q : String) : Option IntervalQuery :=
  match searchInterval q.data with
  | none => none
  | some (c, g₁, g₂) =>
    some { chr := c, gstart := g₁, gend := g₂,
           assembly :=
             if pyStartsWith q "hg19." then some "hg19"
             else if pyStartsWith q "mm9." then some "mm9"
             else none }

/-- The QueryError message of the species=all interval branch (es.py
lines 577-579). -/
def interval_allspecies_error_msg : String :=
  "genomic interval query cannot be combined with \"species=all\" parameter. Specify a single species."

/-- ESQueryBuilder.query (es.py lines 552-593).  The datasource
translation (a config-table regex rewrite) is passed in as `tr`.  An
interval match with species "all" raises the QueryError; otherwise the
species list is narrowed to its first element (IndexError on an empty
list) and the genomic builder runs.  Non-interval queries go through
generate_query, the score wrap, the facet filters and the query
options. -/
def ESQueryBuilder_query (tr : String → String) (st : BState) (q : String) :
    Except PyErr Json :=
  let q := tr q
  match _parse_interval_query q with
  | some iq =>
    match st.species with
    | .all => .error (.queryError interval_allspecies_error_msg)
    | .ids [] => .error .indexError
    | .ids (t :: _) =>
      build_genomic_pos_query { st with species := .ids [t] }
        iq.chr (.str iq.gstart) (.str iq.gend) iq.assembly
  | none =>
    match generate_query q with
    | .error e => .error e
    | .ok base =>
      .ok (updateOptions st (add_facet_filters st
        (.obj [("query", add_species_custom_filters_score base)])))

/-- Whether an Except carries a value. -/
def exceptOk : Except PyErr Json → Bool
  | .ok _ => true
  | .error _ => false

/-- A stored genomic-position entry of an indexed document, used to
state the semantics of the emitted nested range query. -/
structure GDoc where
  chr : String
  start : Rat
  stop : Rat

/-- Models the execution engine's documented semantics of the three
clause shapes the genomic builder emits: term is exact equality, range
lte / gte are inclusive bounds. -/
def evalClause (fld : String) (d : GDoc) : Json → Bool
  | .obj [("term", .obj [(k, .str v)])] => k == fld ++ ".chr" && d.chr == v
  | .obj [("range", .obj [(k, .obj [("lte", .num v)])])] => k == fld ++ ".start" && decide (d.start ≤ v)
  | .obj [("range", .obj [(k, .obj [("gte", .num v)])])] => k == fld ++ ".end" && decide (v ≤ d.stop)
  | _ => false

/-- Evaluates the emitted nested bool/must query against a stored
genomic-position entry. -/
def evalGenomicQuery (j : Json) (d : GDoc) : Bool :=
  match j with
  | .obj [("nested", .obj
      [("path", .str fld),
       ("query", .obj [("bool", .obj [("must", .arr clauses)])])])] =>
    clauses.all (evalClause fld d)
  | _ => false

/-- A builder state with every option at its __init__ default (species
"all", no filters, no saved-filter store, no surviving options). -/
def st0 : BState :=
  { species := .all, species_facet_filter := none, entrezonly := false,
    ensemblonly := false, userfilter := none, existsfilter := none,
    missingfilter := none, ufStore := fun _ => none, query_options := [] }

/-- The resolution loop of _cleaned_species appends only integers:
every branch of resolveToken produces a PyItem.int. -/
theorem resolveTokens_only_ints (ts : List PyItem) :
    ∀ x ∈ resolveTokens ts, ∃ n : Int, x = PyItem.int n := by
  induction ts with
  | nil => intro x hx; exact absurd hx (by simp [resolveTokens])
  | cons t rest ih =>
    intro x hx
    rw [resolveTokens] at hx
    rcases List.mem_append.mp hx with h₁ | h₂
    · cases t with
      | int n =>
        simp [resolveToken] at h₁
        exact ⟨n, h₁⟩
      | str s =>
        simp only [resolveToken] at h₁
        cases hp : parseIntStr s with
        | some n =>
          rw [hp] at h₁
          simp at h₁
          exact ⟨n, h₁⟩
        | none =>
          rw [hp] at h₁
          cases ht : taxonomyLookup s with
          | some m =>
            rw [ht] at h₁
            simp at h₁
            exact ⟨m, h₁⟩
          | none =>
            rw [ht] at h₁
            exact absurd h₁ (by simp)
    · exact ih x h₂

/-- Claim C4: the index router selects the full index exactly when the
species is "all" or some resolved id lies outside the tier-1 set, and
the tier-1 index exactly when every id lies inside it; the routing is
a pure function of the resolved species value. -/
theorem claim_C4 (sp : SpeciesVal) :
    (_set_index sp = Idx.full ↔
      sp = SpeciesVal.all ∨ ∃ l, sp = SpeciesVal.ids l ∧ ∃ t ∈ l, t ∉ tier_1_species) ∧
    (_set_index sp = Idx.tier1 ↔
      ∃ l, sp = SpeciesVal.ids l ∧ ∀ t ∈ l, t ∈ tier_1_species) := by
  have key : ∀ l : List Int,
      0 < (l.filter (fun t => decide (t ∉ tier_1_species))).length ↔
        ∃ t ∈ l, t ∉ tier_1_species := by
    intro l
    rw [List.length_pos, Ne, List.filter_eq_nil_iff]
    push_neg
    simp
  cases sp with
  | all =>
    constructor
    · exact iff_of_true rfl (Or.inl rfl)
    · constructor
      · intro h; exact Idx.noConfusion h
      · rintro ⟨l', hl', _⟩; exact SpeciesVal.noConfusion hl'
  | ids l =>
    by_cases hc : ∃ t ∈ l, t ∉ tier_1_species
    · have h0 : 0 < (l.filter (fun t => decide (t ∉ tier_1_species))).length := (key l).mpr hc
      have hfull : _set_index (.ids l) = .full := by simp only [_set_index, if_pos h0]
      constructor
      · exact iff_of_true hfull (Or.inr ⟨l, rfl, hc⟩)
      · constructor
        · intro h; exact Idx.noConfusion (hfull.symm.trans h)
        · rintro ⟨l', hl', hall⟩
          cases hl'
          rcases hc with ⟨t, ht, hout⟩
          exact absurd (hall t ht) hout
    · have h0 : ¬ 0 < (l.filter (fun t => decide (t ∉ tier_1_species))).length :=
        fun h => hc ((key l).mp h)
      have htier : _set_index (.ids l) = .tier1 := by simp only [_set_index, if_neg h0]
      push_neg at hc
      constructor
      · constructor
        · intro h; exact Idx.noConfusion (htier.symm.trans h)
        · rintro (h | ⟨l', hl', t, ht, hout⟩)
          · exact SpeciesVal.noConfusion h
          · cases hl'
            exact absurd (hc t ht) hout
      · exact iff_of_true htier ⟨l, rfl, hc⟩


/-- Claim C7: the score augmenter wraps any query in a function_score
envelope with score_mode "first" (first matching function wins) and
the fixed rule list: pseudogene name matches are downgraded by a
factor strictly below 1, and the three preferred organisms receive
fixed boosts ordered human (9606) above mouse (10090) above rat
(10116), all strictly above 1. -/
theorem claim_C7 (q : Json) :
    add_species_custom_filters_score q = .obj [("function_score", .obj
      [("query", q),
       ("functions", .arr
         [.obj [("filter", .obj [("term", .obj [("name", .str "pseudogene")])]),
                ("boost_factor", .str "0.5")],
          .obj [("filter", .obj [("term", .obj [("taxid", .num 9606)])]),
                ("boost_factor", .str "1.55")],
          .obj [("filter", .obj [("term", .obj [("taxid", .num 10090)])]),
                ("boost_factor", .str "1.3")],
          .obj [("filter", .obj [("term", .obj [("taxid", .num 10116)])]),
                ("boost_factor", .str "1.1")]]),
       ("score_mode", .str "first")])] ∧
    (∃ bp, decimalFraction "0.5" = some bp ∧ fracLt bp (1, 1)) ∧
    (∃ bh bm br, decimalFraction "1.55" = some bh ∧ decimalFraction "1.3" = some bm ∧
      decimalFraction "1.1" = some br ∧ fracLt (1, 1) br ∧ fracLt br bm ∧ fracLt bm bh) :=
  ⟨rfl,
   ⟨(5, 10), rfl, by decide⟩,
   ⟨(155, 100), (13, 10), (11, 10), rfl, rfl, rfl, by decide, by decide, by decide⟩⟩

/-- Claim C2, counterexample: the species resolver accepts the string
"foo" without error and returns an empty list (every unrecognized
token silently dropped), so its result is not always "all" or a
non-empty list of ids. -/
theorem claim_C2_counterexample :
    _cleaned_species (.strV "foo") false = CRes.resList [] := rfl

/-- Claim C2 (amended): for every selector the resolver accepts, the
result is the None fallback, the "all" sentinel, or a list containing
only integer taxonomy ids — never unresolved name strings — but the
list can be empty when every name token is unrecognized. -/
theorem claim_C2_amended (sp : PyVal) (d : Bool) (l : List PyItem)
    (h : _cleaned_species sp d = CRes.resList l) :
    ∀ x ∈ l, ∃ n : Int, x = PyItem.int n := by
  cases sp with
  | noneV =>
    cases d with
    | true => exact absurd h (by simp [_cleaned_species])
    | false =>
      injection h with h
      subst h
      intro x hx
      rcases List.mem_map.mp hx with ⟨n, _, rfl⟩
      exact ⟨n, rfl⟩
  | intV n =>
    injection h with h
    subst h
    intro x hx
    simp at hx
    exact ⟨n, hx⟩
  | strV s =>
    simp only [_cleaned_species] at h
    split at h
    · exact absurd h (by simp)
    · injection h with h
      subst h
      exact resolveTokens_only_ints _
  | seqV ts =>
    injection h with h
    subst h
    exact resolveTokens_only_ints ts

/-- Claim C2, witness: a concrete mixed selector resolves to integer
ids only. -/
theorem claim_C2_witness :
    _cleaned_species (.strV "9606, Mouse") false =
      CRes.resList [PyItem.int 9606, PyItem.int 10090] ∧
    ∀ x ∈ [PyItem.int 9606, PyItem.int 10090], ∃ n : Int, x = PyItem.int n :=
  ⟨rfl, claim_C2_amended (.strV "9606, Mouse") false _ rfl⟩

/-- Claim C6: the scope-filter composer yields no filter when the
clause list is empty, the single clause bare when exactly one clause
is enabled, and an explicit "and" combinator over the clauses when two
or more are enabled. -/
theorem claim_C6 (st : BState) :
    (scope_filter_clauses st = [] → get_query_filters st = none) ∧
    (∀ c, scope_filter_clauses st = [c] → get_query_filters st = some c) ∧
    (∀ c₁ c₂ cs, scope_filter_clauses st = c₁ :: c₂ :: cs →
      get_query_filters st = some (.obj [("and", .arr (c₁ :: c₂ :: cs))])) := by
  refine ⟨?_, ?_, ?_⟩
  · intro h; simp [get_query_filters, h]
  · intro c h; simp [get_query_filters, h]
  · intro c₁ c₂ cs h; simp [get_query_filters, h]

/-- Claim C6, witness: zero, one and two enabled conditions at
concrete builder states. -/
theorem claim_C6_witness :
    get_query_filters st0 = none ∧
    get_query_filters { st0 with entrezonly := true } =
      some (.obj [("exists", .obj [("field", .str "entrezgene")])]) ∧
    get_query_filters { st0 with entrezonly := true, ensemblonly := true } =
      some (.obj [("and", .arr
        [.obj [("exists", .obj [("field", .str "entrezgene")])],
         .obj [("exists", .obj [("field", .str "ensemblgene")])]])]) :=
  ⟨(claim_C6 st0).1 rfl,
   (claim_C6 { st0 with entrezonly := true }).2.1 _ rfl,
   (claim_C6 { st0 with entrezonly := true, ensemblonly := true }).2.2 _ _ _ rfl⟩

/-- Claim C9: with a truthy species_facet_filter, the term-vs-terms
choice of the post-filter is decided by the length of the resolved
species value (len("all") being 3), not by the length of the facet
filter list: a term clause on the first facet id when the species has
length one, a terms clause on the whole facet list otherwise. -/
theorem claim_C9 (st : BState) (q : Json) (f : Int) (fs : List Int)
    (h : st.species_facet_filter = some (f :: fs)) :
    (speciesLen st.species = 1 →
      add_facet_filters st q =
        setKey q "filter" (.obj [("term", .obj [("taxid", .num (f : Rat))])])) ∧
    (speciesLen st.species ≠ 1 →
      add_facet_filters st q =
        setKey q "filter" (.obj [("terms", .obj
          [("taxid", .arr ((f :: fs).map (fun t => Json.num (t : Rat))))])])) := by
  constructor
  · intro hl; simp [add_facet_filters, h, hl]
  · intro hl; simp [add_facet_filters, h, hl]

/-- Claim C9, witness: species "all" with a one-id facet filter yields
a terms clause on that single id; a single-id species with a two-id
facet filter yields a term clause on the first facet id. -/
theorem claim_C9_witness :
    add_facet_filters { st0 with species_facet_filter := some [9606] }
        (.obj [("query", .null)]) =
      setKey (.obj [("query", .null)]) "filter"
        (.obj [("terms", .obj [("taxid", .arr [.num 9606])])]) ∧
    add_facet_filters
        { st0 with species := .ids [9606], species_facet_filter := some [10090, 10116] }
        (.obj [("query", .null)]) =
      setKey (.obj [("query", .null)]) "filter"
        (.obj [("term", .obj [("taxid", .num 10090)])]) :=
  ⟨(claim_C9 { st0 with species_facet_filter := some [9606] }
      (.obj [("query", .null)]) 9606 [] rfl).2 (by decide),
   (claim_C9 { st0 with species := .ids [9606], species_facet_filter := some [10090, 10116] }
      (.obj [("query", .null)]) 10090 [10116] rfl).1 rfl⟩

/-- Claim C3: for every builder state and every id that is not
integer-shaped, build_id_query with the single scope "entrezgene" or
"retired" returns the zero-hit query (wrapped by the usual filter and
score layers) and never raises an error. -/
theorem claim_C3 (st : BState) (id : PyItem) (f : String)
    (h₁ : is_int id = false) (h₂ : f = "entrezgene" ∨ f = "retired") :
    build_id_query st id (some (.fieldName f)) =
      updateOptions st (.obj [("query",
        add_species_custom_filters_score (add_query_filters st nohits_query))]) := by
  rcases h₂ with rfl | rfl <;>
    simp [build_id_query, build_id_query_core, h₁]

/-- Claim C3, witness: scope "entrezgene" with id "not-a-number" at the
default builder state yields the zero-hit query without error. -/
theorem claim_C3_witness :
    is_int (.str "not-a-number") = false ∧
    build_id_query st0 (.str "not-a-number") (some (.fieldName "entrezgene")) =
      updateOptions st0 (.obj [("query",
        add_species_custom_filters_score (add_query_filters st0 nohits_query))]) :=
  ⟨rfl, claim_C3 st0 (.str "not-a-number") "entrezgene" rfl (Or.inl rfl)⟩

/-- Claim C8: when the sanitised raw query parses fully as an integer,
the dis-max builder's clause list is exactly the single highest-weight
entrezgene term clause (the standard list is replaced, not extended);
otherwise the list is the standard six-clause list. -/
theorem claim_C8 (q : String) :
    (∀ n : Int, parseIntStr (removeQuotesBackslash q) = some n →
      getKey2 (dis_max_query q) "dis_max" "queries" =
        some (.arr [entrez_term_clause n])) ∧
    (parseIntStr (removeQuotesBackslash q) = none →
      getKey2 (dis_max_query q) "dis_max" "queries" =
        some (.arr (dis_max_standard_clauses (removeQuotesBackslash q)))) := by
  constructor
  · intro n hn
    simp [dis_max_query, hn, getKey2, getKey]
  · intro hn
    simp [dis_max_query, hn, getKey2, getKey]

/-- Claim C8, witness: the integer query "1007" compiles to the single
entrezgene clause, the textual query "cdk2" to the standard list. -/
theorem claim_C8_witness :
    parseIntStr (removeQuotesBackslash "1007") = some 1007 ∧
    getKey2 (dis_max_query "1007") "dis_max" "queries" =
      some (.arr [entrez_term_clause 1007]) ∧
    getKey2 (dis_max_query "cdk2") "dis_max" "queries" =
      some (.arr (dis_max_standard_clauses (removeQuotesBackslash "cdk2"))) :=
  ⟨rfl, (claim_C8 "1007").1 1007 rfl, (claim_C8 "cdk2").2 rfl⟩

/-- Removing quotes and backslashes is idempotent. -/
theorem removeQuotesBackslash_idem (q : String) :
    removeQuotesBackslash (removeQuotesBackslash q) = removeQuotesBackslash q := by
  unfold removeQuotesBackslash
  congr 1
  exact List.filter_eq_self.mpr (fun a ha => (List.mem_filter.mp ha).2)

/-- Claim C10: the dis-max builder first removes every double quote and
backslash from the raw query string — so building from q and building
from the already-sanitised q agree, and the sanitised text embedded in
the clauses contains no double quote and no backslash. -/
theorem claim_C10 (q : String) :
    dis_max_query q = dis_max_query (removeQuotesBackslash q) ∧
    ((removeQuotesBackslash q).data.all (fun c => !(c == '"' || c == '\\'))) = true := by
  constructor
  · unfold dis_max_query
    rw [removeQuotesBackslash_idem]
  · exact List.all_eq_true.mpr (fun c hc => (List.mem_filter.mp hc).2)

/-- Claim C5: the genomic builder strips digit-grouping commas from the
positions (via safe_genome_pos), strips a leading "chr" prefix
case-insensitively, lower-cases the chromosome, selects the
genomic-position field variant keyed by the assembly, and emits a
nested bool query whose semantics over a stored range is exact
chromosome equality AND stored start ≤ queried end AND stored end ≥
queried start, with both bounds inclusive. -/
theorem claim_C5 (ch gs ge : String) (asm : Option String) (ns ne : Int)
    (h₁ : safe_genome_pos (.str gs) = .ok ns) (h₂ : safe_genome_pos (.str ge) = .ok ne)
    (j : Json) (hj : genomic_pos_core ch (.str gs) (.str ge) asm = .ok j) :
    j = .obj [("nested", .obj
      [("path", .str (genomic_pos_field asm)),
       ("query", .obj [("bool", .obj [("must", .arr
         [.obj [("term", .obj [(genomic_pos_field asm ++ ".chr",
            .str (pyLower (if pyStartsWith (pyLower ch) "chr" then ch.drop 3 else ch)))])],
          .obj [("range", .obj [(genomic_pos_field asm ++ ".start",
            .obj [("lte", .num (ne : Rat))])])],
          .obj [("range", .obj [(genomic_pos_field asm ++ ".end",
            .obj [("gte", .num (ns : Rat))])])]])])])])] ∧
    (∀ d : GDoc, evalGenomicQuery j d =
      ((d.chr == pyLower (if pyStartsWith (pyLower ch) "chr" then ch.drop 3 else ch)) &&
       (decide (d.start ≤ (ne : Rat)) && decide ((ns : Rat) ≤ d.stop)))) ∧
    genomic_pos_field none = "genomic_pos" ∧
    genomic_pos_field (some "hg19") = "genomic_pos_hg19" ∧
    genomic_pos_field (some "mm9") = "genomic_pos_mm9" := by
  have hjeq : j = .obj [("nested", .obj
      [("path", .str (genomic_pos_field asm)),
       ("query", .obj [("bool", .obj [("must", .arr
         [.obj [("term", .obj [(genomic_pos_field asm ++ ".chr",
            .str (pyLower (if pyStartsWith (pyLower ch) "chr" then ch.drop 3 else ch)))])],
          .obj [("range", .obj [(genomic_pos_field asm ++ ".start",
            .obj [("lte", .num (ne : Rat))])])],
          .obj [("range", .obj [(genomic_pos_field asm ++ ".end",
            .obj [("gte", .num (ns : Rat))])])]])])])])] := by
    unfold genomic_pos_core at hj
    rw [h₁, h₂] at hj
    injection hj with hj
    exact hj.symm
  refine ⟨hjeq, ?_, rfl, rfl, rfl⟩
  intro d
  subst hjeq
  simp [evalGenomicQuery, evalClause]

/-- Claim C5, witness: query "chr1:1,000-2,000" (commas stripped,
"chr" prefix stripped) against stored ranges — an overlapping range
matches, a range touching only at the shared endpoint 2000 still
matches (inclusive bounds), a disjoint range does not. -/
theorem claim_C5_witness :
    safe_genome_pos (.str "1,000") = .ok 1000 ∧
    genomic_pos_core "chr1" (.str "1,000") (.str "2,000") none =
      .ok (.obj [("nested", .obj
        [("path", .str "genomic_pos"),
         ("query", .obj [("bool", .obj [("must", .arr
           [.obj [("term", .obj [("genomic_pos.chr", .str "1")])],
            .obj [("range", .obj [("genomic_pos.start", .obj [("lte", .num 2000)])])],
            .obj [("range", .obj [("genomic_pos.end", .obj [("gte", .num 1000)])])]])])])])]) ∧
    evalGenomicQuery (.obj [("nested", .obj
        [("path", .str "genomic_pos"),
         ("query", .obj [("bool", .obj [("must", .arr
           [.obj [("term", .obj [("genomic_pos.chr", .str "1")])],
            .obj [("range", .obj [("genomic_pos.start", .obj [("lte", .num 2000)])])],
            .obj [("range", .obj [("genomic_pos.end", .obj [("gte", .num 1000)])])]])])])])])
      ⟨"1", 500, 1500⟩ = true ∧
    evalGenomicQuery (.obj [("nested", .obj
        [("path", .str "genomic_pos"),
         ("query", .obj [("bool", .obj [("must", .arr
           [.obj [("term", .obj [("genomic_pos.chr", .str "1")])],
            .obj [("range", .obj [("genomic_pos.start", .obj [("lte", .num 2000)])])],
            .obj [("range", .obj [("genomic_pos.end", .obj [("gte", .num 1000)])])]])])])])])
      ⟨"1", 2000, 3000⟩ = true ∧
    evalGenomicQuery (.obj [("nested", .obj
        [("path", .str "genomic_pos"),
         ("query", .obj [("bool", .obj [("must", .arr
           [.obj [("term", .obj [("genomic_pos.chr", .str "1")])],
            .obj [("range", .obj [("genomic_pos.start", .obj [("lte", .num 2000)])])],
            .obj [("range", .obj [("genomic_pos.end", .obj [("gte", .num 1000)])])]])])])])])
      ⟨"1", 2500, 3000⟩ = false := by
  have h := claim_C5 "chr1" "1,000" "2,000" none 1000 2000 rfl rfl
    (.obj [("nested", .obj
      [("path", .str "genomic_pos"),
       ("query", .obj [("bool", .obj [("must", .arr
         [.obj [("term", .obj [("genomic_pos.chr", .str "1")])],
          .obj [("range", .obj [("genomic_pos.start", .obj [("lte", .num 2000)])])],
          .obj [("range", .obj [("genomic_pos.end", .obj [("gte", .num 1000)])])]])])])])])
    rfl
  refine ⟨rfl, rfl, ?_, ?_, ?_⟩
  · rw [h.2.1 ⟨"1", 500, 1500⟩]; decide
  · rw [h.2.1 ⟨"1", 2000, 3000⟩]; decide
  · rw [h.2.1 ⟨"1", 2500, 3000⟩]; decide

/-- safe_genome_pos only fails with ValueError. -/
theorem safe_genome_pos_error_value (x : PyItem) (e : PyErr)
    (h : safe_genome_pos x = .error e) : e = .valueError "invalid literal for int" := by
  cases x with
  | int n => exact Except.noConfusion h
  | str s =>
    simp only [safe_genome_pos] at h
    cases hp : parseIntStr (stripCommas s) with
    | none => rw [hp] at h; injection h with h; exact h.symm
    | some n => rw [hp] at h; exact Except.noConfusion h

/-- The genomic core never fails with a QueryError (its only failures
come from safe_genome_pos, which raises ValueError). -/
theorem genomic_pos_core_not_queryerror (ch : String) (gs ge : PyItem)
    (asm : Option String) (m : String) :
    genomic_pos_core ch gs ge asm ≠ .error (.queryError m) := by
  intro h
  unfold genomic_pos_core at h
  cases hgs : safe_genome_pos gs with
  | error e =>
    rw [hgs] at h
    injection h with h
    have hv := safe_genome_pos_error_value gs e hgs
    rw [hv] at h
    exact PyErr.noConfusion h
  | ok a =>
    rw [hgs] at h
    cases hge : safe_genome_pos ge with
    | error e =>
      rw [hge] at h
      injection h with h
      have hv := safe_genome_pos_error_value ge e hge
      rw [hv] at h
      exact PyErr.noConfusion h
    | ok b =>
      rw [hge] at h
      exact Except.noConfusion h

/-- The genomic builder never fails with a QueryError. -/
theorem build_genomic_not_queryerror (st : BState) (ch : String) (gs ge : PyItem)
    (asm : Option String) (m : String) :
    build_genomic_pos_query st ch gs ge asm ≠ .error (.queryError m) := by
  intro h
  unfold build_genomic_pos_query at h
  cases hc : genomic_pos_core ch gs ge asm with
  | error e =>
    rw [hc] at h
    injection h with h
    exact genomic_pos_core_not_queryerror ch gs ge asm m (by rw [hc, h])
  | ok c =>
    rw [hc] at h
    exact Except.noConfusion h

/-- Claim C1 (amended): for a raw query classified as a genomic
interval, compilation fails with the user-facing ambiguous-organism
QueryError exactly when the resolved species is the "all" sentinel;
when the species is a non-empty id list — even one holding several
taxonomy ids — no such error is raised: the builder silently narrows
the species to its first id and compiles the genomic query. -/
theorem claim_C1_amended (tr : String → String) (st : BState) (q : String)
    (d : IntervalQuery) (h : _parse_interval_query (tr q) = some d) :
    (ESQueryBuilder_query tr st q = .error (.queryError interval_allspecies_error_msg) ↔
      st.species = SpeciesVal.all) ∧
    (∀ t ts, st.species = SpeciesVal.ids (t :: ts) →
      ESQueryBuilder_query tr st q =
        build_genomic_pos_query { st with species := .ids [t] }
          d.chr (.str d.gstart) (.str d.gend) d.assembly) := by
  constructor
  · constructor
    · intro he
      cases hsp : st.species with
      | all => rfl
      | ids l =>
        cases l with
        | nil =>
          simp only [ESQueryBuilder_query, h, hsp] at he
          injection he with he
          exact absurd he.symm (by simp)
        | cons t ts =>
          simp only [ESQueryBuilder_query, h, hsp] at he
          exact absurd he
            (build_genomic_not_queryerror { st with species := .ids [t] }
              d.chr (.str d.gstart) (.str d.gend) d.assembly
              interval_allspecies_error_msg)
    · intro hsp
      simp only [ESQueryBuilder_query, h, hsp]
  · intro t ts hsp
    simp only [ESQueryBuilder_query, h, hsp]

/-- Claim C1, counterexample: a genomic-interval query combined with a
resolved species list of two taxonomy ids compiles successfully — it
does not fail with a user-facing error as the claim requires. -/
theorem claim_C1_counterexample :
    exceptOk (ESQueryBuilder_query (fun s => s)
      { st0 with species := .ids [9606, 10090] } "chr1:1000-2000") = true := rfl

/-- Claim C1, witness: the interval query fails with the ambiguous
error exactly on species "all", and with two resolved ids it compiles
via the genomic builder narrowed to the first id. -/
theorem claim_C1_witness :
    _parse_interval_query "chr1:1000-2000" = some ⟨"1", "1000", "2000", none⟩ ∧
    ESQueryBuilder_query (fun s => s) st0 "chr1:1000-2000" =
      .error (.queryError interval_allspecies_error_msg) ∧
    ESQueryBuilder_query (fun s => s) { st0 with species := .ids [9606, 10090] }
        "chr1:1000-2000" =
      build_genomic_pos_query { st0 with species := .ids [9606] }
        "1" (.str "1000") (.str "2000") none :=
  ⟨rfl,
   (claim_C1_amended (fun s => s) st0 "chr1:1000-2000" ⟨"1", "1000", "2000", none⟩ rfl).1.mpr rfl,
   (claim_C1_amended (fun s => s) { st0 with species := .ids [9606, 10090] }
     "chr1:1000-2000" ⟨"1", "1000", "2000", none⟩ rfl).2 9606 [10090] rfl⟩
